import Mathlib

/-!
Verification development for the EPIAS quarterly-report generator
(`epias_rapor_v3.py`).  The Python program is shallowly embedded:

* pandas `DataFrame`s become explicit tables: a per-category table
  (`CatTable`) keyed by an encoded timestamp, and the merged wide table
  (`DF`); a missing cell (`NaN`) is `none`.
* timestamps are encoded as the natural number
  `((year*100+month)*100+day)*100+hour` (`encodeDT`).
* HTTP traffic is abstracted by an outcome value per request
  (`HttpOutcome`): the response status together with its parsed JSON
  body, a timeout, or a transport exception.  JSON bodies are modelled
  by `JVal`, records by `Item`; `time.sleep` and each issued request are
  recorded in an explicit effect trace (`Ev`).
* fallible Python code (raised exceptions) is modelled with
  `Except`/`Option`; every Lean function is total, which mirrors the
  "never raises" parts of the code.
* non-numeric value cells (strings) are modelled as missing values,
  since the program only ever aggregates numeric columns; ASCII
  lowercasing models Python `str.lower()` (all column names produced by
  the program are ASCII).
* `pd.concat(axis=1)` row order is modelled as first-appearance order of
  the timestamps; pandas may sort the union index, which permutes rows
  but does not change index membership, columns, or per-timestamp cell
  values, and only those are stated below.
-/

/-- Keep the first occurrence of every element, dropping later
duplicates; `seen` accumulates the elements already emitted.  Models
`df[~df.index.duplicated(keep='first')]` applied to the index. -/
def dedupFirstAux (seen : List Nat) : List Nat → List Nat
  | [] => []
  | t :: ts => if t ∈ seen then dedupFirstAux seen ts
               else t :: dedupFirstAux (t :: seen) ts

/-- First-occurrence deduplication of an index. -/
def dedupFirst (l : List Nat) : List Nat := dedupFirstAux [] l

/-- Position of the first occurrence of `a` in a list, if any. -/
def idxOf? {α : Type} [BEq α] (a : α) : List α → Option Nat
  | [] => none
  | x :: xs => if x == a then some 0 else (idxOf? a xs).map (· + 1)

/-- Bool test: `needle` occurs as a contiguous sublist of `hay`. -/
def listInfixB (needle hay : List Char) : Bool :=
  hay.tails.any (fun t => needle.isPrefixOf t)

/-- Python `sub in s` (substring containment). -/
def strContains (s sub : String) : Bool := listInfixB sub.data s.data

/-- Python `s.lower()` for the ASCII column names used by the program. -/
def lowerStr (s : String) : String := String.mk (s.data.map Char.toLower)

/-- Two-digit zero-padded decimal rendering of `n < 100`. -/
def pad2 (n : Nat) : String :=
  if n < 10 then "0" ++ toString n else toString n

/-- pandas `Series.sum()` with its default `skipna=True`: missing
values are skipped and an all-missing or empty column sums to `0`. -/
def colSum (xs : List (Option Rat)) : Rat := (xs.filterMap id).sum

/-- Number of non-missing values of a column. -/
def colCount (xs : List (Option Rat)) : Nat := (xs.filterMap id).length

/-- pandas `Series.mean()`: `none` models the `NaN` returned for a
column without any non-missing value. -/
def colMean (xs : List (Option Rat)) : Option Rat :=
  if colCount xs = 0 then none
  else some (colSum xs / (colCount xs : Rat))

/-- pandas `Series.abs().sum()`. -/
def colAbsSum (xs : List (Option Rat)) : Rat :=
  ((xs.filterMap id).map (fun q => |q|)).sum

/-- Elementwise product of two aligned columns; a product with a
missing operand is missing, as for `NaN` in pandas. -/
def zipMul (xs ys : List (Option Rat)) : List (Option Rat) :=
  List.zipWith (fun a b => match a, b with
    | some x, some y => some (x * y)
    | _, _ => none) xs ys

/-- Encode a naive timestamp `year-month-day hour:00` as a natural
number; the encoding is monotone in the lexicographic field order. -/
def encodeDT (year month day hour : Nat) : Nat :=
  ((year * 100 + month) * 100 + day) * 100 + hour

/-- Gregorian leap-year rule, as used by `datetime`/pandas. -/
def isLeapYear (y : Nat) : Bool :=
  (y % 4 == 0 && y % 100 != 0) || y % 400 == 0

/-- Number of days of a month. -/
def daysInMonth (y m : Nat) : Nat :=
  if m == 2 then (if isLeapYear y then 29 else 28)
  else if m == 4 || m == 6 || m == 9 || m == 11 then 30
  else 31

/-- Decimal value of an ASCII digit character. -/
def dvChar (c : Char) : Nat := c.toNat - 48

/-- Models `pd.to_datetime(s, format='%y%m%d%H', errors='coerce')` on a
single string: exactly eight digits `YYMMDDHH` denoting a valid
calendar date and hour, with the C `%y` pivot (`00`-`68` are 2000s,
`69`-`99` are 1900s); any other input coerces to `NaT` (`none`). -/
def parseYYMMDDHH (cs : List Char) : Option Nat :=
  match cs with
  | [y1, y2, m1, m2, d1, d2, h1, h2] =>
    if (y1.isDigit && y2.isDigit && m1.isDigit && m2.isDigit &&
        d1.isDigit && d2.isDigit && h1.isDigit && h2.isDigit) then
      let yy := dvChar y1 * 10 + dvChar y2
      let mm := dvChar m1 * 10 + dvChar m2
      let dd := dvChar d1 * 10 + dvChar d2
      let hh := dvChar h1 * 10 + dvChar h2
      let year := if yy ≤ 68 then 2000 + yy else 1900 + yy
      if 1 ≤ mm && mm ≤ 12 && 1 ≤ dd && dd ≤ daysInMonth year mm && hh ≤ 23
      then some (encodeDT year mm dd hh)
      else none
    else none
  | _ => none

/-- Row key of the intraday matched-quantity category: the contract
name with its first two characters stripped, parsed as `YYMMDDHH`
(`df_quant["kontratAdi"].str[2:]` fed to `pd.to_datetime(...,
format='%y%m%d%H', errors='coerce')`). -/
def parseContract (s : String) : Option Nat := parseYYMMDDHH (s.data.drop 2)

/-- A JSON record field value, as far as the program inspects it. -/
inductive CellV where
  | num (q : Rat)
  | date (t : Nat)
  | str (s : String)
deriving DecidableEq

/-- One raw API record: an association list of field name and value. -/
abbrev Item := List (String × CellV)

/-- Python `record.get(key)`: first binding of the key, if any. -/
def itemGet (it : Item) (k : String) : Option CellV :=
  (it.find? (fun f => f.1 == k)).map (fun f => f.2)

/-- Numeric view of a record field; non-numeric cells are modelled as
missing, as the program never aggregates them. -/
def itemNum (it : Item) (k : String) : Option Rat :=
  match itemGet it k with
  | some (CellV.num q) => some q
  | _ => none

/-- Timestamp view of the record's `date` field. -/
def itemDate (it : Item) : Option Nat :=
  match itemGet it "date" with
  | some (CellV.date t) => some t
  | _ => none

/-- Accumulate the keys of one record, keeping first-appearance order
and dropping keys already collected. -/
def addKeys (acc : List String) (it : Item) : List String :=
  it.foldl (fun a f => if a.contains f.1 then a else a ++ [f.1]) acc

/-- Column set of `pd.DataFrame(items)`: the union of all record keys
in order of first appearance. -/
def collectCols (items : List Item) : List String := items.foldl addKeys []

/-- A JSON value, as far as `make_api_request`/`fetch_paginated_data`
inspect it: an array of records, an object, or anything else. -/
inductive JVal where
  | arr (xs : List Item)
  | obj (fields : List (String × JVal))
  | other

/-- Python `dict.get(k)` on a JSON object. -/
def jGet (j : JVal) (k : String) : Option JVal :=
  match j with
  | JVal.obj fs => (fs.find? (fun f => f.1 == k)).map (fun f => f.2)
  | _ => none

/-- Python `result.get(k, [])` specialised to record lists: the value
under `k` when it is an array, else the empty list. -/
def jItemsAt (j : JVal) (k : String) : List Item :=
  match jGet j k with
  | some (JVal.arr xs) => xs
  | _ => []

/-- The literal fallback value returned by `make_api_request` on any
failure. -/
def emptyResult : JVal :=
  JVal.obj [("items", JVal.arr []), ("body", JVal.obj [("items", JVal.arr [])])]

/-- Outcome of one `requests.post` call: a response (any status) with
its parsed JSON body, a `requests.exceptions.Timeout`, or any other
transport exception. -/
inductive HttpOutcome where
  | response (status : Nat) (body : JVal)
  | timeout
  | exn (msg : String)

/-- Observable effects of the fetch layer: one entry per issued request
and one per executed `time.sleep`. -/
inductive Ev where
  | request (endpoint : String)
  | sleep (seconds : Rat)
deriving DecidableEq

/-- `REQUEST_DELAY = 1.5` seconds. -/
def REQUEST_DELAY : Rat := 3 / 2

/-- `make_api_request`, with its effect trace.  In the source the
`time.sleep(REQUEST_DELAY)` statement sits inside the `try` block after
`requests.post` and before the status test, so it runs exactly when the
post returned a response; the two `except` branches return the fallback
value without sleeping.  A non-200 status also yields the fallback. -/
def make_api_request_eff (o : HttpOutcome) : JVal × List Ev :=
  match o with
  | HttpOutcome.response status body =>
      (if status = 200 then body else emptyResult, [Ev.sleep REQUEST_DELAY])
  | HttpOutcome.timeout => (emptyResult, [])
  | HttpOutcome.exn _ => (emptyResult, [])

/-- Value returned by `make_api_request`. -/
def make_api_request (o : HttpOutcome) : JVal := (make_api_request_eff o).1

/-- `fetch_paginated_data`: extract the record list under `items_key`,
falling back to `result["body"][items_key]` when the first lookup gives
an empty (or missing) list; the endpoint is recorded in the trace. -/
def fetch_paginated_data_eff (o : HttpOutcome) (endpoint items_key : String) :
    List Item × List Ev :=
  let r := make_api_request_eff o
  let items := jItemsAt r.1 items_key
  let items2 :=
    if items.isEmpty then
      match jGet r.1 "body" with
      | some b => jItemsAt b items_key
      | none => []
    else items
  (items2, Ev.request endpoint :: r.2)

/-- The record list a category fetch yields for an outcome (the value
component of `fetch_paginated_data` with the default `items` key). -/
def fetchItems (o : HttpOutcome) : List Item :=
  (fetch_paginated_data_eff o "" "items").1

/-- One normalized category table: prefixed column names and rows of
(timestamp key, per-column optional value). -/
structure CatTable where
  cols : List String
  rows : List (Nat × List (Option Rat))
deriving DecidableEq

/-- pandas `df.empty`: true when either axis has length zero. -/
def CatTable.isEmptyT (t : CatTable) : Bool :=
  t.rows.isEmpty || t.cols.isEmpty

/-- Value of column number `j` at the FIRST row keyed `ts`, if any:
after the merge's `keep='first'` deduplication this is the surviving
value for that timestamp. -/
def CatTable.cellJ (t : CatTable) (ts : Nat) (j : Nat) : Option Rat :=
  match t.rows.find? (fun r => r.1 == ts) with
  | some r => (r.2.get? j).join
  | none => none

/-- `items_to_dataframe`: empty input gives an empty table; otherwise
build the record table, use the `date` field (already naive after
`tz_localize(None)`) as the row key when present — falling back to the
positional `RangeIndex` when not — drop the redundant `hour` column,
and prefix every remaining column name. -/
def items_to_dataframe (items : List Item) (pre : String) : CatTable :=
  if items.isEmpty then ⟨[], []⟩
  else
    let raw := collectCols items
    let valueCols := raw.filter (fun c => c != "date" && c != "hour")
    { cols := valueCols.map (fun c => pre ++ c)
      rows := items.enum.map (fun p =>
        ((itemDate p.2).getD p.1, valueCols.map (fun c => itemNum p.2 c))) }

/-- The ancillary-service renaming `df.columns = [f"{key}_{c}" ...]`
applied in `download_data`. -/
def CatTable.withOuterKey (t : CatTable) (key : String) : CatTable :=
  { t with cols := t.cols.map (fun c => key ++ "_" ++ c) }

/-- The intraday matched-quantity branch of `fetch_idm_data`: when the
records carry a `kontratAdi` field, derive each row key by parsing the
contract name and drop the rows whose contract name fails the parse
(`errors='coerce'` followed by `dropna`); all columns, including
`kontratAdi` itself, are then prefixed with `idm_`. -/
def idm_quant_table (items : List Item) : CatTable :=
  if items.isEmpty then ⟨[], []⟩
  else
    let raw := collectCols items
    if raw.contains "kontratAdi" then
      { cols := raw.map (fun c => "idm_" ++ c)
        rows := items.filterMap (fun it =>
          match itemGet it "kontratAdi" with
          | some (CellV.str s) =>
              (parseContract s).map
                (fun t => (t, raw.map (fun c => itemNum it c)))
          | _ => none) }
    else
      { cols := raw.map (fun c => "idm_" ++ c)
        rows := items.enum.map (fun p =>
          (p.1, raw.map (fun c => itemNum p.2 c))) }

/-- The merged report table: row index plus named columns, one optional
value per index position. -/
structure DF where
  index : List Nat
  cols : List (String × List (Option Rat))
deriving DecidableEq

/-- `df.columns`. -/
def DF.columns (df : DF) : List String := df.cols.map Prod.fst

/-- `df[name]`: the data of the first column with this name (column
names produced by the program are distinct). -/
def DF.colData (df : DF) (name : String) : List (Option Rat) :=
  match df.cols.find? (fun c => c.1 == name) with
  | some c => c.2
  | none => []

/-- Cell of the merged table at a column name and a timestamp. -/
def DF.cellVal (df : DF) (name : String) (t : Nat) : Option Rat :=
  match df.cols.find? (fun c => c.1 == name), idxOf? t df.index with
  | some c, some i => (c.2.get? i).join
  | _, _ => none

/-- First category table owning a column name, with the column's
position, scanning the given tables in merge order. -/
def firstOwner (dfs : List CatTable) (name : String) :
    Option (CatTable × Nat) :=
  match dfs with
  | [] => none
  | d :: rest =>
    match idxOf? name d.cols with
    | some j => some (d, j)
    | none => firstOwner rest name

/-- The merge step of `download_data`: keep the non-empty category
tables, concatenate their columns (outer join on the timestamp index),
and collapse duplicate timestamps keeping the first occurrence
(`pd.concat(valid_dfs, axis=1)` followed by
`df[~df.index.duplicated(keep='first')]`); with no non-empty table the
result is the empty table (`pd.DataFrame()`). -/
def mergeTables (dfs : List CatTable) : DF :=
  let valid := dfs.filter (fun d => !d.isEmptyT)
  let idx := dedupFirst (valid.map (fun d => d.rows.map Prod.fst)).flatten
  { index := idx
    cols := (valid.map (fun d =>
      d.cols.enum.map (fun p =>
        (p.2, idx.map (fun t => d.cellJ t p.1))))).flatten }

/-- The 16 indicator values of `format_data`'s `fresult` dict.  Each is
an optional rational: `none` models a `NaN` produced by taking the mean
of a column without non-missing values. -/
structure FResult where
  bilateral_quantity : Option Rat
  dam_matchedBids : Option Rat
  ptf : Option Rat
  smf : Option Rat
  idm_wap : Option Rat
  idm_quant : Option Rat
  idm_year_price : Option Rat
  zero_coded : Option Rat
  one_coded : Option Rat
  two_coded : Option Rat
  down_delivered : Option Rat
  up_delivered : Option Rat
  pfc_amount : Option Rat
  pfp_price : Option Rat
  sfc_amount : Option Rat
  sfp_price : Option Rat
deriving DecidableEq

/-- The `dam` matching pattern of `format_data` (fully
case-insensitive: both tests are on the lowered name). -/
def damPred (c : String) : Bool :=
  strContains (lowerStr c) "dam_" && strContains (lowerStr c) "matched"

/-- The `ptf` matching pattern of `format_data`: the `ptf_` prefix test
is case-sensitive, the keyword tests are case-insensitive. -/
def ptfPred (c : String) : Bool :=
  strContains c "ptf_" &&
    (strContains (lowerStr c) "price" || strContains (lowerStr c) "mcp")

/-- The fully case-insensitive `ptf` pattern that the claim describes
(prefix matched on the lowered name as well). -/
def ptfPredCI (c : String) : Bool :=
  strContains (lowerStr c) "ptf_" &&
    (strContains (lowerStr c) "price" || strContains (lowerStr c) "mcp")

/-- The `smf` matching pattern of `format_data`. -/
def smfPred (c : String) : Bool :=
  strContains c "smf_" &&
    (strContains (lowerStr c) "price" || strContains (lowerStr c) "smp" ||
      strContains c "systemMarginalPrice")

/-- The intraday weighted-average-price matching pattern. -/
def wapPred (c : String) : Bool :=
  strContains c "idm_" && strContains (lowerStr c) "wap"

/-- The intraday matched-quantity matching pattern. -/
def idmQuantPred (c : String) : Bool :=
  strContains c "idm_" &&
    (strContains (lowerStr c) "quantity" || strContains (lowerStr c) "clearing")

/-- The coded-order down-column pattern (case-sensitive `bpmD_`). -/
def bpmDownPred (codeLower : String) (c : String) : Bool :=
  strContains c "bpmD_" && strContains (lowerStr c) codeLower

/-- The coded-order up-column pattern (case-sensitive `bpmU_`). -/
def bpmUpPred (codeLower : String) (c : String) : Bool :=
  strContains c "bpmU_" && strContains (lowerStr c) codeLower

/-- The frequency-capacity pattern (fully case-insensitive). -/
def freqPred (key : String) (c : String) : Bool :=
  strContains (lowerStr c) key

/-- `dam_col`: columns whose lowered name contains both `dam_` and
`matched` (this pattern is case-insensitive in the source). -/
def dam_col (df : DF) : List String := df.columns.filter damPred

/-- `ptf_col`: the `ptf_` prefix test is on the raw name
(case-sensitive in the source), the keyword test on the lowered name. -/
def ptf_col (df : DF) : List String := df.columns.filter ptfPred

/-- `smf_col`: case-sensitive `smf_` prefix and `systemMarginalPrice`
keyword, case-insensitive `price`/`smp` keywords. -/
def smf_col (df : DF) : List String := df.columns.filter smfPred

/-- `wap_col`: case-sensitive `idm_` prefix, case-insensitive `wap`. -/
def wap_col (df : DF) : List String := df.columns.filter wapPred

/-- `idm_quant_col`: case-sensitive `idm_` prefix, case-insensitive
`quantity`/`clearing` keywords. -/
def idm_quant_col (df : DF) : List String := df.columns.filter idmQuantPred

/-- `down_col` of the coded-order loop: case-sensitive `bpmD_` prefix,
case-insensitive lowered code token. -/
def bpm_down_col (df : DF) (codeLower : String) : List String :=
  df.columns.filter (bpmDownPred codeLower)

/-- `up_col` of the coded-order loop. -/
def bpm_up_col (df : DF) (codeLower : String) : List String :=
  df.columns.filter (bpmUpPred codeLower)

/-- `down_delivered_col`. -/
def down_delivered_col (df : DF) : List String :=
  df.columns.filter (bpmDownPred "delivered")

/-- `up_delivered_col`. -/
def up_delivered_col (df : DF) : List String :=
  df.columns.filter (bpmUpPred "delivered")

/-- Frequency-capacity column match: `key in c.lower()` with an
all-lowercase key, hence fully case-insensitive. -/
def freq_col (df : DF) (key : String) : List String :=
  df.columns.filter (freqPred key)

/-- One coded-order indicator: absolute sums of the first matching
down- and up-columns, combined and scaled (`total / 1e6`). -/
def codedTotal (df : DF) (codeLower : String) : Option Rat :=
  let t1 : Rat := match bpm_down_col df codeLower with
    | c :: _ => colAbsSum (df.colData c)
    | [] => 0
  let t2 : Rat := match bpm_up_col df codeLower with
    | c :: _ => colAbsSum (df.colData c)
    | [] => 0
  some ((t1 + t2) / 1000000)

/-- `format_data`: compute the 16 indicators from the merged table.
Quantities are summed and scaled by `1e6`, prices averaged, and the
yearly intraday weighted price divides the weighted sum by the total
volume only when that total is strictly positive.  An indicator whose
column is not found is the literal `0`. -/
def format_data (df : DF) : FResult :=
  let bilateral : Option Rat :=
    if df.columns.contains "bilateral_quantity" then
      some (colSum (df.colData "bilateral_quantity") / 1000000)
    else some 0
  let dam : Option Rat := match dam_col df with
    | c :: _ => some (colSum (df.colData c) / 1000000)
    | [] => some 0
  let ptfV : Option Rat := match ptf_col df with
    | c :: _ => colMean (df.colData c)
    | [] => some 0
  let smfV : Option Rat := match smf_col df with
    | c :: _ => colMean (df.colData c)
    | [] => some 0
  let wapV : Option Rat := match wap_col df with
    | c :: _ => colMean (df.colData c)
    | [] => some 0
  let idmQuantV : Option Rat := match idm_quant_col df with
    | q :: _ => some (colSum (df.colData q) / 1000000)
    | [] => some 0
  let idmYearV : Option Rat := match idm_quant_col df with
    | q :: _ =>
      match wap_col df with
      | w :: _ =>
        let total_vol := colSum (df.colData q)
        if 0 < total_vol then
          some (colSum (zipMul (df.colData q) (df.colData w)) / total_vol)
        else some 0
      | [] => some 0
    | [] => some 0
  let downDel : Option Rat := match down_delivered_col df with
    | c :: _ => some (colAbsSum (df.colData c) / 1000000)
    | [] => some 0
  let upDel : Option Rat := match up_delivered_col df with
    | c :: _ => some (colAbsSum (df.colData c) / 1000000)
    | [] => some 0
  let freqV : String → Option Rat := fun key =>
    match freq_col df key with
    | c :: _ => colMean (df.colData c)
    | [] => some 0
  { bilateral_quantity := bilateral
    dam_matchedBids := dam
    ptf := ptfV
    smf := smfV
    idm_wap := wapV
    idm_quant := idmQuantV
    idm_year_price := idmYearV
    zero_coded := codedTotal df (lowerStr "ZeroCoded")
    one_coded := codedTotal df (lowerStr "OneCoded")
    two_coded := codedTotal df (lowerStr "TwoCoded")
    down_delivered := downDel
    up_delivered := upDel
    pfc_amount := freqV "pfc_amount"
    pfp_price := freqV "pfp_price"
    sfc_amount := freqV "sfc_amount"
    sfp_price := freqV "sfp_price" }

/-- The 16 fixed Turkish indicator labels of the summary sheet, in
source order. -/
def goestergeLabels : List String :=
  [ "Alış veya Satış Miktarı (milyar kWh)"
  , "Ortalama Piyasa Takas Fiyatı (TL/MWh) (SST/SSM)"
  , "Eşleşen Alış veya Satış Miktarı (milyar kWh)"
  , "Günlük Ağırlıklı Ortalama Fiyatların, Yıl Bazında Aritmetik Ortalama Fiyatı (TL/MWh)"
  , "Yıllık Ağırlıklı Ortalama Fiyat (TL/kWh) (SST/SSM)"
  , "Eşleşme Miktarı (milyar kWh)"
  , "Ortalama Sistem Marjinal Fiyatı (TL/MWh)"
  , "0 Kodlu YAL ve YAT Talimatları Toplamı (milyar kWh)"
  , "1 Kodlu YAL ve YAT Talimatları Toplamı (milyar kWh)"
  , "2 Kodlu YAL ve YAT Talimatları Toplamı (milyar kWh)"
  , "Kesinleşmiş Yük Alma Miktarı (milyar kWh)"
  , "Kesinleşmiş Yük Atma Miktarı (milyar kWh)"
  , "Ortalama Saatlik Primer Frekans Rezerv Miktarı (MWh)"
  , "Ortalama Primer Frekans Kontrolü Fiyatı (TL/MWh)"
  , "Ortalama Saatlik Sekonder Frekans Rezerv Miktarı (MWh)"
  , "Ortalama Sekonder Frekans Kontrolü Fiyatı (TL/MWh)" ]

/-- The `ozet` summary rows: labels paired with the indicator values in
the source's fixed order (note `up_delivered` sits on the "Yük Alma"
row and `down_delivered` on the "Yük Atma" row, as in the source). -/
def ozetRows (r : FResult) : List (String × Option Rat) :=
  List.zip goestergeLabels
    [ r.bilateral_quantity, r.ptf, r.dam_matchedBids, r.idm_wap
    , r.idm_year_price, r.idm_quant, r.smf, r.zero_coded, r.one_coded
    , r.two_coded, r.up_delivered, r.down_delivered, r.pfc_amount
    , r.pfp_price, r.sfc_amount, r.sfp_price ]

/-- A spreadsheet cell of the detail sheet: a rendered string (used for
timestamps and status text) or a numeric/missing value. -/
inductive Cell where
  | str (s : String)
  | val (v : Option Rat)
deriving DecidableEq

/-- The in-memory workbook: summary rows plus the detail sheet's header
and rows. -/
structure Workbook where
  ozet : List (String × Option Rat)
  detayCols : List String
  detayRows : List (List Cell)
deriving DecidableEq

/-- The detail-sheet column rename map of `get_excel_bytes`. -/
def renameMap : List (String × String) :=
  [ ("sysdir_direction", "Sistem Yönü")
  , ("pfc_amount_amount", "pfc_amount")
  , ("pfp_price_price", "pfp_price")
  , ("sfc_amount_amount", "sfc_amount")
  , ("sfp_price_price", "sfp_price") ]

/-- Apply the rename map to one column name (identity when absent). -/
def renameCol (c : String) : String :=
  match renameMap.find? (fun p => p.1 == c) with
  | some p => p.2
  | none => c

/-- Render an encoded timestamp in the `'%Y-%m-%d %H:%M:%S'` format the
detail sheet uses (minutes and seconds are always zero for the hourly
data). -/
def fmtTS (t : Nat) : String :=
  toString (t / 1000000) ++ "-" ++ pad2 (t / 10000 % 100) ++ "-" ++
    pad2 (t / 100 % 100) ++ " " ++ pad2 (t % 100) ++ ":00:00"

/-- `get_excel_bytes`: the summary sheet gets the `ozet` rows; the
detail sheet gets the merged table with its timestamp index restored as
a leading string column and the rename map applied — unless the merged
table is empty, in which case the detail sheet is the single status row
`Veri bulunamadı` under the header `Durum`. -/
def get_excel_bytes (df : DF) (oz : List (String × Option Rat)) : Workbook :=
  if df.index.isEmpty || df.cols.isEmpty then
    { ozet := oz
      detayCols := ["Durum"]
      detayRows := [[Cell.str "Veri bulunamadı"]] }
  else
    { ozet := oz
      detayCols := "date" :: df.cols.map (fun c => renameCol c.1)
      detayRows := df.index.enum.map (fun p =>
        Cell.str (fmtTS p.2) ::
          df.cols.map (fun c => Cell.val ((c.2.get? p.1).join))) }

/-- Response of the authentication endpoint. -/
structure AuthResp where
  status : Nat
  text : String

/-- The message of the exception raised by `get_tgt_token` on a
non-201 status: it carries the status code and the response body. -/
def authFailMsg (resp : AuthResp) : String :=
  "Giriş Başarısız! Status: " ++ toString resp.status ++
    ", Mesaj: " ++ resp.text

/-- `get_tgt_token`: status 201 yields the trimmed response body as the
session credential; any other status raises. -/
def get_tgt_token (resp : AuthResp) : Except String String :=
  if resp.status = 201 then Except.ok resp.text.trim
  else Except.error (authFailMsg resp)

/-- `quarter_to_dates`: the start is always January 1 of the year; the
end is the literal last hour of the chosen quarter; any other quarter
raises `ValueError`. -/
def quarter_to_dates (q year : Nat) : Except String (String × String) :=
  let start := toString year ++ "-01-01T00:00:00+03:00"
  if q = 1 then Except.ok (start, toString year ++ "-03-31T23:00:00+03:00")
  else if q = 2 then Except.ok (start, toString year ++ "-06-30T23:00:00+03:00")
  else if q = 3 then Except.ok (start, toString year ++ "-09-30T23:00:00+03:00")
  else if q = 4 then Except.ok (start, toString year ++ "-12-31T23:00:00+03:00")
  else Except.error "Geçersiz çeyrek!"

/-- Last month of quarter `q` (for stating the date-range property). -/
def qEndMonth (q : Nat) : Nat :=
  if q = 1 then 3 else if q = 2 then 6 else if q = 3 then 9
  else if q = 4 then 12 else 0

/-- Last day of quarter `q`'s last month. -/
def qEndDay (q : Nat) : Nat :=
  if q = 1 then 31 else if q = 2 then 30 else if q = 3 then 30
  else if q = 4 then 31 else 0

/-- ISO rendering used by `quarter_to_dates` (UTC+3, as the source's
f-strings produce). -/
def isoDate (year : Nat) (md : String) (hh : String) : String :=
  toString year ++ "-" ++ md ++ "T" ++ hh ++ ":00:00+03:00"

/-- The outcome of each of the 13 category requests issued by one
`download_data` run, in request order. -/
structure FetchOutcomes where
  ptf : HttpOutcome
  smf : HttpOutcome
  sysdir : HttpOutcome
  bilateral : HttpOutcome
  dam : HttpOutcome
  bpmDown : HttpOutcome
  bpmUp : HttpOutcome
  idmPrice : HttpOutcome
  idmQuant : HttpOutcome
  pfc : HttpOutcome
  pfp : HttpOutcome
  sfc : HttpOutcome
  sfp : HttpOutcome

/-- `download_data`: fetch the 13 category record lists in source
order, normalize each into its prefixed category table (the ancillary
tables get a second outer key), and merge.  The effect trace
concatenates the per-request traces in request order. -/
def download_data_eff (o : FetchOutcomes) : DF × List Ev :=
  let ptfR := fetch_paginated_data_eff o.ptf "/v1/markets/dam/data/mcp" "items"
  let smfR := fetch_paginated_data_eff o.smf "/v1/markets/bpm/data/system-marginal-price" "items"
  let sysR := fetch_paginated_data_eff o.sysdir "/v1/markets/bpm/data/system-direction" "items"
  let bilR := fetch_paginated_data_eff o.bilateral "/v1/markets/bilateral-contracts/data/bilateral-contracts-bid-quantity" "items"
  let damR := fetch_paginated_data_eff o.dam "/v1/markets/dam/data/clearing-quantity" "items"
  let dwnR := fetch_paginated_data_eff o.bpmDown "/v1/markets/bpm/data/order-summary-down" "items"
  let upR := fetch_paginated_data_eff o.bpmUp "/v1/markets/bpm/data/order-summary-up" "items"
  let ipR := fetch_paginated_data_eff o.idmPrice "/v1/markets/idm/data/weighted-average-price" "items"
  let iqR := fetch_paginated_data_eff o.idmQuant "/v1/markets/idm/data/matching-quantity" "items"
  let pfcR := fetch_paginated_data_eff o.pfc "/v1/markets/ancillary-services/data/primary-frequency-capacity-amount" "items"
  let pfpR := fetch_paginated_data_eff o.pfp "/v1/markets/ancillary-services/data/primary-frequency-capacity-price" "items"
  let sfcR := fetch_paginated_data_eff o.sfc "/v1/markets/ancillary-services/data/secondary-frequency-capacity-amount" "items"
  let sfpR := fetch_paginated_data_eff o.sfp "/v1/markets/ancillary-services/data/secondary-frequency-capacity-price" "items"
  let df := mergeTables
    [ items_to_dataframe ptfR.1 "ptf_"
    , items_to_dataframe smfR.1 "smf_"
    , items_to_dataframe sysR.1 "sysdir_"
    , items_to_dataframe bilR.1 "bilateral_"
    , items_to_dataframe damR.1 "dam_"
    , items_to_dataframe dwnR.1 "bpmD_"
    , items_to_dataframe upR.1 "bpmU_"
    , items_to_dataframe ipR.1 "idm_"
    , idm_quant_table iqR.1
    , (items_to_dataframe pfcR.1 "").withOuterKey "pfc_amount"
    , (items_to_dataframe pfpR.1 "").withOuterKey "pfp_price"
    , (items_to_dataframe sfcR.1 "").withOuterKey "sfc_amount"
    , (items_to_dataframe sfpR.1 "").withOuterKey "sfp_price" ]
  (df, ptfR.2 ++ smfR.2 ++ sysR.2 ++ bilR.2 ++ damR.2 ++ dwnR.2 ++ upR.2 ++
    ipR.2 ++ iqR.2 ++ pfcR.2 ++ pfpR.2 ++ sfcR.2 ++ sfpR.2)

/-- One report run, driven as the dashboard drives the
`BakanlikCeyreklikVeri` class: construction (authentication, quarter
validation, date derivation), then `download_data`, `format_data` and
`get_excel_bytes`.  A failed construction aborts with the raised error
before any request is issued (empty effect trace) and produces no
workbook. -/
def runReportTr (auth : AuthResp) (qi : Nat × Nat) (o : FetchOutcomes) :
    Except String Workbook × List Ev :=
  match get_tgt_token auth with
  | Except.error e => (Except.error e, [])
  | Except.ok _tgt =>
    if qi.1 ∈ ([1, 2, 3, 4] : List Nat) ∧ 2015 ≤ qi.2 then
      match quarter_to_dates qi.1 qi.2 with
      | Except.error e => (Except.error e, [])
      | Except.ok _dates =>
        let r := download_data_eff o
        let fres := format_data r.1
        (Except.ok (get_excel_bytes r.1 (ozetRows fres)), r.2)
    else
      (Except.error "Tarihleri kontrol ediniz. Çeyrek 1-4, yıl >= 2015 olmalı.", [])

/-- True when the request failed: non-200 status, timeout, or transport
exception. -/
def HttpOutcome.isFailure : HttpOutcome → Bool
  | HttpOutcome.response s _ => s != 200
  | HttpOutcome.timeout => true
  | HttpOutcome.exn _ => true

/-- Indicator built from the first column matching a pattern, `0` when
no column matches (the shape every `format_data` indicator has). -/
def firstIndicator (df : DF) (p : String → Bool)
    (f : List (Option Rat) → Option Rat) : Option Rat :=
  match df.columns.find? p with
  | some c => f (df.colData c)
  | none => some 0

/-- Absolute sum of the first column matching a pattern, `0` when no
column matches. -/
def firstAbsSumOr0 (df : DF) (p : String → Bool) : Rat :=
  match df.columns.find? p with
  | some c => colAbsSum (df.colData c)
  | none => 0

/-- Merged table of the claimed indicator-matching counterexample: its
only column matches the `ptf` pattern case-insensitively but not
case-sensitively. -/
def dfPTF : DF := ⟨[2023010100], [("PTF_mcp", [some 10])]⟩

/-- Merged table of the dam/ptf indicator example. -/
def dfDam : DF :=
  ⟨[2023010100, 2023010101], [("dam_matchedBidQuantity", [some 2, some 3])]⟩

/-- Merged table of the weighted-price example ([2,4] against
[10,20]). -/
def dfW : DF :=
  ⟨[2023010100, 2023010101],
    [("idm_matchingQuantity", [some 2, some 4]), ("idm_wap", [some 10, some 20])]⟩

/-- Same table with an all-zero quantity column. -/
def dfZ : DF :=
  ⟨[2023010100, 2023010101],
    [("idm_matchingQuantity", [some 0, some 0]), ("idm_wap", [some 10, some 20])]⟩

/-- Table with a strictly negative total quantity. -/
def dfN : DF :=
  ⟨[2023010100], [("idm_matchingQuantity", [some (-5)]), ("idm_wap", [some 10])]⟩

/-- Table with empty quantity and price columns (total volume zero). -/
def dfE : DF := ⟨[], [("idm_matchingQuantity", []), ("idm_wap", [])]⟩

/-- Intraday record with a parseable contract name. -/
def recA : Item := [("kontratAdi", CellV.str "PH23010110"), ("quantity", CellV.num 5)]

/-- Intraday record whose contract name fails the `YYMMDDHH` parse. -/
def recB : Item := [("kontratAdi", CellV.str "XYshort"), ("quantity", CellV.num 7)]

/-- Fetch outcomes in which every category request times out, so every
category yields an empty record list. -/
def allTimeoutOutcomes : FetchOutcomes :=
  ⟨HttpOutcome.timeout, HttpOutcome.timeout, HttpOutcome.timeout,
   HttpOutcome.timeout, HttpOutcome.timeout, HttpOutcome.timeout,
   HttpOutcome.timeout, HttpOutcome.timeout, HttpOutcome.timeout,
   HttpOutcome.timeout, HttpOutcome.timeout, HttpOutcome.timeout,
   HttpOutcome.timeout⟩

theorem mem_dedupFirstAux (l : List Nat) :
    ∀ (seen : List Nat) (x : Nat),
      x ∈ dedupFirstAux seen l ↔ x ∈ l ∧ x ∉ seen := by
  induction l with
  | nil => intro seen x; simp [dedupFirstAux]
  | cons t ts ih =>
    intro seen x
    by_cases h : t ∈ seen
    · rw [dedupFirstAux, if_pos h, ih]
      constructor
      · rintro ⟨hx, hs⟩
        exact ⟨List.mem_cons_of_mem _ hx, hs⟩
      · rintro ⟨hx, hs⟩
        rcases List.mem_cons.mp hx with rfl | hx
        · exact absurd h hs
        · exact ⟨hx, hs⟩
    · rw [dedupFirstAux, if_neg h]
      constructor
      · intro hx
        rcases List.mem_cons.mp hx with rfl | hx
        · exact ⟨List.mem_cons_self _ _, h⟩
        · obtain ⟨h1, h2⟩ := (ih (t :: seen) x).mp hx
          refine ⟨List.mem_cons_of_mem _ h1, fun hs => h2 (List.mem_cons_of_mem _ hs)⟩
      · rintro ⟨hx, hs⟩
        rcases List.mem_cons.mp hx with rfl | hx
        · exact List.mem_cons_self _ _
        · by_cases hxt : x = t
          · subst hxt; exact List.mem_cons_self _ _
          · refine List.mem_cons_of_mem _ ((ih (t :: seen) x).mpr ⟨hx, ?_⟩)
            intro hmem
            rcases List.mem_cons.mp hmem with rfl | hmem
            · exact hxt rfl
            · exact hs hmem

theorem nodup_dedupFirstAux (l : List Nat) :
    ∀ seen : List Nat, (dedupFirstAux seen l).Nodup := by
  induction l with
  | nil => intro seen; simp [dedupFirstAux]
  | cons t ts ih =>
    intro seen
    by_cases h : t ∈ seen
    · rw [dedupFirstAux, if_pos h]; exact ih seen
    · rw [dedupFirstAux, if_neg h]
      refine List.nodup_cons.mpr ⟨?_, ih (t :: seen)⟩
      intro hmem
      exact ((mem_dedupFirstAux ts (t :: seen) t).mp hmem).2 (List.mem_cons_self _ _)

theorem mem_dedupFirst (l : List Nat) (x : Nat) : x ∈ dedupFirst l ↔ x ∈ l := by
  rw [dedupFirst, mem_dedupFirstAux]
  simp

theorem idxOf?_get? {α : Type} [BEq α] [LawfulBEq α] (l : List α) (a : α) :
    ∀ i : Nat, idxOf? a l = some i → l.get? i = some a := by
  induction l with
  | nil => intro i h; simp [idxOf?] at h
  | cons x xs ih =>
    intro i h
    rw [idxOf?] at h
    by_cases hx : x == a
    · rw [if_pos hx] at h
      cases h
      simp [List.get?, eq_of_beq hx]
    · rw [if_neg hx] at h
      cases hj : idxOf? a xs with
      | none => rw [hj] at h; simp at h
      | some j =>
        rw [hj] at h
        simp only [Option.map_some'] at h
        cases h
        simpa [List.get?] using ih j hj

theorem idxOf?_eq_none {α : Type} [BEq α] [LawfulBEq α] (l : List α) (a : α)
    (h : idxOf? a l = none) : a ∉ l := by
  induction l with
  | nil => simp
  | cons x xs ih =>
    rw [idxOf?] at h
    by_cases hx : x == a
    · rw [if_pos hx] at h; cases h
    · rw [if_neg hx] at h
      intro hmem
      rcases List.mem_cons.mp hmem with rfl | hmem
      · exact hx (beq_self_eq_true a)
      · cases hj : idxOf? a xs with
        | none => exact ih hj hmem
        | some j => rw [hj] at h; simp at h

theorem find?_eq_head?_filter {α : Type} (l : List α) (p : α → Bool) :
    l.find? p = (l.filter p).head? := by
  induction l with
  | nil => rfl
  | cons a t ih =>
    by_cases h : p a
    · rw [List.find?_cons_of_pos _ h, List.filter_cons_of_pos h, List.head?_cons]
    · rw [List.find?_cons_of_neg _ h, List.filter_cons_of_neg h, ih]

theorem headFilterFind {α β : Type} (l : List α) (p : α → Bool) (f : α → β) (dflt : β) :
    (match l.filter p with | c :: _ => f c | [] => dflt)
      = (match l.find? p with | some c => f c | none => dflt) := by
  rw [find?_eq_head?_filter]
  cases l.filter p <;> rfl

theorem find_enum_block (cols : List String) (g : Nat → List (Option Rat))
    (name : String) :
    ∀ n : Nat,
      ((cols.enumFrom n).map (fun p => (p.2, g p.1))).find? (fun c => c.1 == name)
        = (idxOf? name cols).map (fun j => (name, g (n + j))) := by
  induction cols with
  | nil => intro n; rfl
  | cons c cs ih =>
    intro n
    rw [List.enumFrom]
    by_cases h : c == name
    · rw [List.map_cons, List.find?_cons_of_pos _ (by simpa using h), idxOf?,
        if_pos h]
      simp [eq_of_beq h]
    · rw [List.map_cons, List.find?_cons_of_neg _ (by simpa using h), idxOf?,
        if_neg h, ih (n + 1)]
      cases hj : idxOf? name cs with
      | none => rfl
      | some j =>
        simp only [Option.map_some']
        have : n + 1 + j = n + (j + 1) := by omega
        rw [this]

theorem firstOwner_mem (name : String) (d : CatTable) (j : Nat) :
    ∀ dfs : List CatTable, firstOwner dfs name = some (d, j) → d ∈ dfs := by
  intro dfs
  induction dfs with
  | nil => intro h; simp [firstOwner] at h
  | cons a rest ih =>
    intro h
    rw [firstOwner] at h
    cases ha : idxOf? name a.cols with
    | some j2 =>
      rw [ha] at h
      cases h
      exact List.mem_cons_self _ _
    | none =>
      rw [ha] at h
      exact List.mem_cons_of_mem _ (ih h)

theorem cellJ_none_of_not_mem (d : CatTable) (t j : Nat)
    (h : t ∉ d.rows.map Prod.fst) : d.cellJ t j = none := by
  rw [CatTable.cellJ]
  cases hf : d.rows.find? (fun r => r.1 == t) with
  | none => rfl
  | some r =>
    exfalso
    have hr := List.find?_some hf
    have hmem := List.mem_of_find?_eq_some hf
    exact h (List.mem_map.mpr ⟨r, hmem, eq_of_beq hr⟩)

theorem find_owner_flatten (idx : List Nat) (name : String) :
    ∀ valid : List CatTable,
      ((valid.map (fun d => d.cols.enum.map
          (fun p => (p.2, idx.map (fun ts => d.cellJ ts p.1))))).flatten).find?
            (fun c => c.1 == name)
        = (firstOwner valid name).map
            (fun pr => (name, idx.map (fun ts => pr.1.cellJ ts pr.2))) := by
  intro valid
  induction valid with
  | nil => rfl
  | cons d rest ih =>
    rw [List.map_cons, List.flatten_cons, List.find?_append, firstOwner]
    have hblk := find_enum_block d.cols (fun j => idx.map (fun ts => d.cellJ ts j)) name 0
    rw [show List.enum d.cols = List.enumFrom 0 d.cols from rfl, hblk]
    cases hj : idxOf? name d.cols with
    | some j => simp
    | none => simpa using ih

theorem jItemsAt_emptyResult (k : String) : jItemsAt emptyResult k = [] := by
  rw [jItemsAt, emptyResult, jGet]
  by_cases h1 : ("items" == k)
  · rw [List.find?_cons_of_pos _ (by simpa using h1)]
    rfl
  · rw [List.find?_cons_of_neg _ (by simpa using h1)]
    by_cases h2 : ("body" == k)
    · rw [List.find?_cons_of_pos _ (by simpa using h2)]
      rfl
    · rw [List.find?_cons_of_neg _ (by simpa using h2), List.find?_nil]
      rfl

theorem jItemsAt_bodyOfEmptyResult (k : String) :
    jItemsAt (JVal.obj [("items", JVal.arr [])]) k = [] := by
  rw [jItemsAt, jGet]
  by_cases h1 : ("items" == k)
  · rw [List.find?_cons_of_pos _ (by simpa using h1)]
    rfl
  · rw [List.find?_cons_of_neg _ (by simpa using h1), List.find?_nil]
    rfl


theorem fetch_of_emptyResult (o : HttpOutcome) (endpoint k : String)
    (h : (make_api_request_eff o).1 = emptyResult) :
    (fetch_paginated_data_eff o endpoint k).1 = [] := by
  rw [fetch_paginated_data_eff]
  simp only [h, jItemsAt_emptyResult, List.isEmpty_nil, if_pos]
  rw [show jGet emptyResult "body" = some (JVal.obj [("items", JVal.arr [])]) from rfl]
  exact jItemsAt_bodyOfEmptyResult k

theorem colSum_nil : colSum [] = 0 := rfl

theorem colSum_cons_some (q : Rat) (xs : List (Option Rat)) :
    colSum (some q :: xs) = q + colSum xs := by
  simp [colSum, List.filterMap_cons]

theorem colSum_cons_none (xs : List (Option Rat)) :
    colSum (none :: xs) = colSum xs := by
  simp [colSum, List.filterMap_cons]

theorem colCount_nil : colCount [] = 0 := rfl

theorem colCount_cons_some (q : Rat) (xs : List (Option Rat)) :
    colCount (some q :: xs) = colCount xs + 1 := by
  simp [colCount, List.filterMap_cons]

theorem colAbsSum_nil : colAbsSum [] = 0 := rfl

theorem colAbsSum_cons_some (q : Rat) (xs : List (Option Rat)) :
    colAbsSum (some q :: xs) = |q| + colAbsSum xs := by
  simp [colAbsSum, List.filterMap_cons]

theorem zipMul_cons_some (x y : Rat) (xs ys : List (Option Rat)) :
    zipMul (some x :: xs) (some y :: ys) = some (x * y) :: zipMul xs ys := rfl

theorem zipMul_nil : zipMul [] [] = [] := rfl

theorem format_data_emptyDF :
    format_data ⟨[], []⟩ =
      ⟨some 0, some 0, some 0, some 0, some 0, some 0, some 0, some 0,
       some 0, some 0, some 0, some 0, some 0, some 0, some 0, some 0⟩ := by
  simp only [format_data, dam_col, ptf_col, smf_col, wap_col, idm_quant_col,
    down_delivered_col, up_delivered_col, freq_col, bpm_down_col, bpm_up_col,
    codedTotal, DF.columns, List.map_nil, List.filter_nil, List.contains_nil,
    Bool.false_eq_true, if_false]
  norm_num

theorem download_empty (o : FetchOutcomes)
    (h1 : fetchItems o.ptf = []) (h2 : fetchItems o.smf = [])
    (h3 : fetchItems o.sysdir = []) (h4 : fetchItems o.bilateral = [])
    (h5 : fetchItems o.dam = []) (h6 : fetchItems o.bpmDown = [])
    (h7 : fetchItems o.bpmUp = []) (h8 : fetchItems o.idmPrice = [])
    (h9 : fetchItems o.idmQuant = []) (h10 : fetchItems o.pfc = [])
    (h11 : fetchItems o.pfp = []) (h12 : fetchItems o.sfc = [])
    (h13 : fetchItems o.sfp = []) :
    (download_data_eff o).1 = ⟨[], []⟩ := by
  have he : ∀ (x : HttpOutcome) (e : String),
      (fetch_paginated_data_eff x e "items").1 = fetchItems x := fun x e => rfl
  simp only [download_data_eff, he, h1, h2, h3, h4, h5, h6, h7, h8, h9, h10,
    h11, h12, h13]
  rfl

theorem isoDate_flat (year : Nat) (md hh rest : String)
    (h : "-" ++ (md ++ ("T" ++ (hh ++ ":00:00+03:00"))) = rest) :
    isoDate year md hh = toString year ++ rest := by
  rw [isoDate]
  simp only [String.append_assoc]
  rw [h]

/-- C4: for every quarter `q ∈ {1,2,3,4}` and year `y ≥ 2015`,
`quarter_to_dates` succeeds with a range starting at `y-01-01T00:00`
and ending at hour 23:00 of the last day of quarter `q` of year `y`
(months 3/6/9/12, days 31/30/30/31), and the start does not exceed the
end in the timestamp order; for any other quarter it fails with the
`ValueError`. -/
theorem c4_quarter_to_dates : ∀ q year : Nat,
    ((q = 1 ∨ q = 2 ∨ q = 3 ∨ q = 4) → 2015 ≤ year →
      quarter_to_dates q year =
        Except.ok (isoDate year "01-01" "00",
          isoDate year (pad2 (qEndMonth q) ++ "-" ++ pad2 (qEndDay q)) "23")
      ∧ encodeDT year 1 1 0 ≤ encodeDT year (qEndMonth q) (qEndDay q) 23)
    ∧ (¬(q = 1 ∨ q = 2 ∨ q = 3 ∨ q = 4) →
        quarter_to_dates q year = Except.error "Geçersiz çeyrek!") := by
  intro q year
  constructor
  · rintro (rfl | rfl | rfl | rfl) _
    · refine ⟨?_, by show encodeDT year 1 1 0 ≤ encodeDT year 3 31 23
                     simp only [encodeDT]; omega⟩
      rw [isoDate_flat year "01-01" "00" "-01-01T00:00:00+03:00" (by rfl),
        isoDate_flat year (pad2 (qEndMonth 1) ++ "-" ++ pad2 (qEndDay 1)) "23"
          "-03-31T23:00:00+03:00" (by rfl)]
      rfl
    · refine ⟨?_, by show encodeDT year 1 1 0 ≤ encodeDT year 6 30 23
                     simp only [encodeDT]; omega⟩
      rw [isoDate_flat year "01-01" "00" "-01-01T00:00:00+03:00" (by rfl),
        isoDate_flat year (pad2 (qEndMonth 2) ++ "-" ++ pad2 (qEndDay 2)) "23"
          "-06-30T23:00:00+03:00" (by rfl)]
      rfl
    · refine ⟨?_, by show encodeDT year 1 1 0 ≤ encodeDT year 9 30 23
                     simp only [encodeDT]; omega⟩
      rw [isoDate_flat year "01-01" "00" "-01-01T00:00:00+03:00" (by rfl),
        isoDate_flat year (pad2 (qEndMonth 3) ++ "-" ++ pad2 (qEndDay 3)) "23"
          "-09-30T23:00:00+03:00" (by rfl)]
      rfl
    · refine ⟨?_, by show encodeDT year 1 1 0 ≤ encodeDT year 12 31 23
                     simp only [encodeDT]; omega⟩
      rw [isoDate_flat year "01-01" "00" "-01-01T00:00:00+03:00" (by rfl),
        isoDate_flat year (pad2 (qEndMonth 4) ++ "-" ++ pad2 (qEndDay 4)) "23"
          "-12-31T23:00:00+03:00" (by rfl)]
      rfl
  · intro h
    push_neg at h
    obtain ⟨n1, n2, n3, n4⟩ := h
    rw [quarter_to_dates]
    rw [if_neg n1, if_neg n2, if_neg n3, if_neg n4]

/-- C4 witness: the second quarter of 2023 yields the range
`2023-01-01T00:00` to `2023-06-30T23:00`. -/
theorem c4_quarter_to_dates_witness :
    quarter_to_dates 2 2023 =
      Except.ok (isoDate 2023 "01-01" "00",
        isoDate 2023 (pad2 (qEndMonth 2) ++ "-" ++ pad2 (qEndDay 2)) "23")
    ∧ encodeDT 2023 1 1 0 ≤ encodeDT 2023 (qEndMonth 2) (qEndDay 2) 23 :=
  (c4_quarter_to_dates 2 2023).1 (by decide) (by decide)

/-- C8: authentication succeeds exactly on status 201, in which case
the trimmed response body is the session credential; any other status
yields the error carrying the status code and response body
(`authFailMsg` is the literal message text built from both), and a run
whose authentication fails aborts during construction with that error,
with an empty effect trace — no category request is issued, no sleep
happens, and no workbook is produced. -/
theorem c8_auth : ∀ (resp : AuthResp) (qi : Nat × Nat) (o : FetchOutcomes),
    (resp.status = 201 → get_tgt_token resp = Except.ok resp.text.trim)
    ∧ (resp.status ≠ 201 →
        get_tgt_token resp = Except.error (authFailMsg resp)
        ∧ runReportTr resp qi o = (Except.error (authFailMsg resp), [])) := by
  intro resp qi o
  constructor
  · intro h
    rw [get_tgt_token, if_pos h]
  · intro h
    have hg : get_tgt_token resp = Except.error (authFailMsg resp) := by
      rw [get_tgt_token, if_neg h]
    refine ⟨hg, ?_⟩
    rw [runReportTr, hg]

/-- C8 witness: a 403 response aborts the run before any fetch. -/
theorem c8_auth_witness :
    get_tgt_token ⟨403, "Forbidden"⟩ =
      Except.error (authFailMsg ⟨403, "Forbidden"⟩)
    ∧ runReportTr ⟨403, "Forbidden"⟩ (4, 2024) allTimeoutOutcomes =
        (Except.error (authFailMsg ⟨403, "Forbidden"⟩), []) :=
  (c8_auth ⟨403, "Forbidden"⟩ (4, 2024) allTimeoutOutcomes).2 (by decide)

/-- C6: whenever a category request fails — non-200 status, timeout,
or transport exception — `make_api_request` returns the literal empty
result structure and `fetch_paginated_data` extracts the empty record
list from it, for any endpoint and any items key; both functions are
total, so the failure never raises and the run continues with the
other categories' data. -/
theorem c6_fetch_failure : ∀ (o : HttpOutcome) (endpoint key : String),
    o.isFailure = true →
    make_api_request o = emptyResult
    ∧ (fetch_paginated_data_eff o endpoint key).1 = [] := by
  intro o endpoint key h
  have hm : (make_api_request_eff o).1 = emptyResult := by
    cases o with
    | response s b =>
      have hs : s ≠ 200 := by simpa [HttpOutcome.isFailure] using h
      simp [make_api_request_eff, hs]
    | timeout => rfl
    | exn m => rfl
  exact ⟨hm, fetch_of_emptyResult o endpoint key hm⟩

/-- C6 witness: a 500 response yields the empty result and an empty
record list. -/
theorem c6_fetch_failure_witness :
    make_api_request (HttpOutcome.response 500 JVal.other) = emptyResult
    ∧ (fetch_paginated_data_eff (HttpOutcome.response 500 JVal.other)
        "/v1/markets/dam/data/mcp" "items").1 = [] :=
  c6_fetch_failure (HttpOutcome.response 500 JVal.other)
    "/v1/markets/dam/data/mcp" "items" (by decide)

/-- C7 counterexample: the claim says the fetcher sleeps the fixed
1.5-second delay after every request regardless of outcome, including
timeouts; but on a timeout the `requests.post` call raises before the
`time.sleep` line is reached, so the effect trace of a timed-out
request contains no sleep at all. -/
theorem c7_counterexample :
    (make_api_request_eff HttpOutcome.timeout).2 = []
    ∧ (make_api_request_eff HttpOutcome.timeout).2 ≠ [Ev.sleep REQUEST_DELAY] := by
  refine ⟨rfl, ?_⟩
  intro h
  simp [make_api_request_eff] at h

/-- C7 (amended): the fetcher sleeps the fixed 1.5-second delay
exactly when the request returned a response — of any status, success
or not — and does not sleep when the request raised (timeout or
transport exception), in which case it returns immediately. -/
theorem c7_sleep_on_response : ∀ (s : Nat) (b : JVal) (m : String),
    (make_api_request_eff (HttpOutcome.response s b)).2 = [Ev.sleep REQUEST_DELAY]
    ∧ (make_api_request_eff HttpOutcome.timeout).2 = []
    ∧ (make_api_request_eff (HttpOutcome.exn m)).2 = [] := by
  intro s b m
  exact ⟨rfl, rfl, rfl⟩

/-- C5: the intraday matched-quantity row key strips the contract
name's first two characters and parses the remaining eight digits as
`YYMMDDHH`: `"PH23010110"` parses to 2023-01-01 10:00; a
parse-incompatible value such as `"XYshort"` makes its row drop out of
the table (it is absent from the `filterMap`) rather than raising —
shown both for arbitrary record lists carrying a `kontratAdi` field
and on the concrete two-record input. -/
theorem c5_contract_parse :
    parseContract "PH23010110" = some (encodeDT 2023 1 1 10)
    ∧ parseContract "XYshort" = none
    ∧ (∀ items : List Item,
        (collectCols items).contains "kontratAdi" = true →
        (idm_quant_table items).rows = items.filterMap (fun it =>
          match itemGet it "kontratAdi" with
          | some (CellV.str s) =>
              (parseContract s).map
                (fun t => (t, (collectCols items).map (fun c => itemNum it c)))
          | _ => none))
    ∧ idm_quant_table [recA, recB] =
        ⟨["idm_kontratAdi", "idm_quantity"],
         [(encodeDT 2023 1 1 10, [none, some 5])]⟩ := by
  refine ⟨by decide, by decide, ?_, by decide⟩
  intro items h
  have hni : items.isEmpty = false := by
    cases items with
    | nil => simp [collectCols] at h
    | cons a t => rfl
  simp only [idm_quant_table, hni, Bool.false_eq_true, if_false, h, if_true]

/-- C5 witness: the key derivation applied to the single parseable
record. -/
theorem c5_contract_parse_witness :
    (idm_quant_table [recA]).rows = [recA].filterMap (fun it =>
      match itemGet it "kontratAdi" with
      | some (CellV.str s) =>
          (parseContract s).map
            (fun t => (t, (collectCols [recA]).map (fun c => itemNum it c)))
      | _ => none) :=
  c5_contract_parse.2.2.1 [recA] (by decide)

theorem map_fst_pair_block (cols : List String)
    (F : Nat × String → List (Option Rat)) :
    ((cols.enum.map (fun p => (p.2, F p))).map Prod.fst) = cols := by
  rw [List.map_map]
  have h : (Prod.fst ∘ fun p : Nat × String => (p.2, F p)) = Prod.snd := rfl
  rw [h, List.enum_map_snd]

theorem map_fst_flatten_blocks (idx : List Nat) : ∀ valid : List CatTable,
    ((valid.map (fun d => d.cols.enum.map
        (fun p => (p.2, idx.map (fun ts => d.cellJ ts p.1))))).flatten).map Prod.fst
      = (valid.map CatTable.cols).flatten := by
  intro valid
  induction valid with
  | nil => rfl
  | cons d rest ih =>
    simp only [List.map_cons, List.flatten_cons, List.map_append, ih,
      map_fst_pair_block]

theorem cellVal_mk (valid : List CatTable) (idx : List Nat)
    (hidx : ∀ d ∈ valid, ∀ ts ∈ d.rows.map Prod.fst, ts ∈ idx)
    (name : String) (t : Nat) :
    DF.cellVal ⟨idx, (valid.map (fun d => d.cols.enum.map
        (fun p => (p.2, idx.map (fun ts => d.cellJ ts p.1))))).flatten⟩ name t
      = ((firstOwner valid name).map (fun p => p.1.cellJ t p.2)).join := by
  rw [DF.cellVal]
  simp only
  rw [find_owner_flatten idx name valid]
  cases ho : firstOwner valid name with
  | none => simp
  | some pr =>
    obtain ⟨d, j⟩ := pr
    simp only [Option.map_some']
    cases hi : idxOf? t idx with
    | some i =>
      have hg : idx.get? i = some t := idxOf?_get? idx t i hi
      simp only [hi, List.get?_map, hg, Option.map_some']
    | none =>
      have hd : d ∈ valid := firstOwner_mem name d j valid ho
      have hnm : t ∉ d.rows.map Prod.fst := by
        intro hmem
        exact idxOf?_eq_none idx t hi (hidx d hd t hmem)
      simp only [hi, cellJ_none_of_not_mem d t j hnm]
      rfl

/-- C1: for every collection of category tables, the merged table's
index is exactly the set of timestamps of the non-empty category
tables (membership characterisation) and holds each timestamp once
(`Nodup`); the merged columns are exactly the concatenated columns of
the non-empty tables, so an empty category contributes no columns; the
cell at a column name and timestamp is the value of the FIRST row with
that timestamp in the first non-empty table owning the column
(`CatTable.cellJ` reads the first matching row, which is the
`keep='first'` collapse); and if every category table is empty the
merged table is empty. -/
theorem c1_merge : ∀ dfs : List CatTable,
    (mergeTables dfs).index.Nodup
    ∧ (∀ t, t ∈ (mergeTables dfs).index ↔
        ∃ d, d ∈ dfs ∧ d.isEmptyT = false ∧ t ∈ d.rows.map Prod.fst)
    ∧ DF.columns (mergeTables dfs) =
        ((dfs.filter (fun d => !d.isEmptyT)).map CatTable.cols).flatten
    ∧ (∀ name t, DF.cellVal (mergeTables dfs) name t =
        ((firstOwner (dfs.filter (fun d => !d.isEmptyT)) name).map
          (fun p => p.1.cellJ t p.2)).join)
    ∧ ((∀ d ∈ dfs, d.isEmptyT = true) → mergeTables dfs = ⟨[], []⟩) := by
  intro dfs
  refine ⟨?_, ?_, ?_, ?_, ?_⟩
  · simp only [mergeTables, dedupFirst]
    exact nodup_dedupFirstAux _ _
  · intro t
    simp only [mergeTables]
    rw [mem_dedupFirst, List.mem_flatten]
    constructor
    · rintro ⟨l, hl, ht⟩
      obtain ⟨d, hd, rfl⟩ := List.mem_map.mp hl
      have hdf := List.mem_filter.mp hd
      have he : d.isEmptyT = false := by simpa using hdf.2
      exact ⟨d, hdf.1, he, ht⟩
    · rintro ⟨d, hd, he, ht⟩
      refine ⟨d.rows.map Prod.fst, ?_, ht⟩
      exact List.mem_map_of_mem _ (List.mem_filter.mpr ⟨hd, by simp [he]⟩)
  · simp only [mergeTables, DF.columns]
    exact map_fst_flatten_blocks _ _
  · intro name t
    refine cellVal_mk (dfs.filter (fun d => !d.isEmptyT))
      (dedupFirst ((dfs.filter (fun d => !d.isEmptyT)).map
        (fun d => d.rows.map Prod.fst)).flatten) ?_ name t
    intro d hd ts hts
    rw [mem_dedupFirst]
    exact List.mem_flatten.mpr ⟨d.rows.map Prod.fst, List.mem_map_of_mem _ hd, hts⟩
  · intro h
    have hv : dfs.filter (fun d => !d.isEmptyT) = [] := by
      rw [List.filter_eq_nil_iff]
      intro d hd
      simp [h d hd]
    simp [mergeTables, hv, dedupFirst, dedupFirstAux]

/-- C1 witness: a collection consisting of one empty category table
merges to the empty table. -/
theorem c1_merge_witness : mergeTables [⟨["a"], []⟩] = ⟨[], []⟩ :=
  (c1_merge [⟨["a"], []⟩]).2.2.2.2 (by decide)

theorem idm_year_price_formula (df : DF) (qc wc : String)
    (hq : (idm_quant_col df).head? = some qc)
    (hw : (wap_col df).head? = some wc) :
    (format_data df).idm_year_price =
      if 0 < colSum (df.colData qc)
      then some (colSum (zipMul (df.colData qc) (df.colData wc)) /
        colSum (df.colData qc))
      else some 0 := by
  cases hql : idm_quant_col df with
  | nil => rw [hql] at hq; simp at hq
  | cons q rest =>
    rw [hql] at hq
    have hqe : q = qc := by simpa using hq
    subst hqe
    cases hwl : wap_col df with
    | nil => rw [hwl] at hw; simp at hw
    | cons w rest2 =>
      rw [hwl] at hw
      have hwe : w = wc := by simpa using hw
      subst hwe
      simp only [format_data, hql, hwl]

/-- C3: whenever the merged table has a first intraday-quantity column
and a first weighted-average-price column, the yearly intraday
weighted price is the volume-weighted quotient
Σ(quantity·price)/Σ(quantity) when the total volume is positive; on
the concrete quantity column [2,4] against price column [10,20] it is
(2·10+4·20)/(2+4) = 50/3 (= 16.66...), and with all quantities zero it
is 0 — no division by zero occurs, the zero branch returns the literal
0. -/
theorem c3_weighted_price :
    (∀ (df : DF) (qc wc : String),
      (idm_quant_col df).head? = some qc →
      (wap_col df).head? = some wc →
      (format_data df).idm_year_price =
        if 0 < colSum (df.colData qc)
        then some (colSum (zipMul (df.colData qc) (df.colData wc)) /
          colSum (df.colData qc))
        else some 0)
    ∧ (format_data dfW).idm_year_price = some (50 / 3)
    ∧ (format_data dfZ).idm_year_price = some 0 := by
  refine ⟨idm_year_price_formula, ?_, ?_⟩
  · rw [idm_year_price_formula dfW "idm_matchingQuantity" "idm_wap"
      (by decide) (by decide)]
    rw [show DF.colData dfW "idm_matchingQuantity" = [some 2, some 4] from by decide,
      show DF.colData dfW "idm_wap" = [some 10, some 20] from by decide]
    rw [if_pos (by norm_num [colSum_cons_some, colSum_nil])]
    norm_num [zipMul_cons_some, zipMul_nil, colSum_cons_some, colSum_nil]
  · rw [idm_year_price_formula dfZ "idm_matchingQuantity" "idm_wap"
      (by decide) (by decide)]
    rw [show DF.colData dfZ "idm_matchingQuantity" = [some 0, some 0] from by decide]
    rw [if_neg (by norm_num [colSum_cons_some, colSum_nil])]

/-- C3 witness: the weighted-price formula instantiated at the
concrete [2,4]/[10,20] table. -/
theorem c3_weighted_price_witness :
    (format_data dfW).idm_year_price =
      if 0 < colSum (DF.colData dfW "idm_matchingQuantity")
      then some (colSum (zipMul (DF.colData dfW "idm_matchingQuantity")
          (DF.colData dfW "idm_wap")) /
        colSum (DF.colData dfW "idm_matchingQuantity"))
      else some 0 :=
  c3_weighted_price.1 dfW "idm_matchingQuantity" "idm_wap" (by decide) (by decide)

/-- C10: the weighted-price division is guarded by a strict positivity
test on the total volume: whenever the summed quantity is zero or
negative the indicator is the literal 0 and the quotient branch is not
taken; in particular a strictly negative total volume (quantity column
[-5]) also yields 0 rather than the weighted quotient. -/
theorem c10_nonpositive_volume :
    (∀ (df : DF) (qc wc : String),
      (idm_quant_col df).head? = some qc →
      (wap_col df).head? = some wc →
      colSum (df.colData qc) ≤ 0 →
      (format_data df).idm_year_price = some 0)
    ∧ (format_data dfN).idm_year_price = some 0 := by
  constructor
  · intro df qc wc hq hw hle
    rw [idm_year_price_formula df qc wc hq hw, if_neg (not_lt.mpr hle)]
  · rw [idm_year_price_formula dfN "idm_matchingQuantity" "idm_wap"
      (by decide) (by decide)]
    rw [show DF.colData dfN "idm_matchingQuantity" = [some (-5)] from by decide]
    rw [if_neg (by norm_num [colSum_cons_some, colSum_nil])]

/-- C10 witness: a table whose quantity column is empty (total volume
zero) gets indicator 0. -/
theorem c10_nonpositive_volume_witness :
    (format_data dfE).idm_year_price = some 0 :=
  c10_nonpositive_volume.1 dfE "idm_matchingQuantity" "idm_wap"
    (by decide) (by decide) (by decide)

theorem codedTotal_eq (df : DF) (codeLower : String) :
    codedTotal df codeLower =
      some ((firstAbsSumOr0 df (bpmDownPred codeLower) +
        firstAbsSumOr0 df (bpmUpPred codeLower)) / 1000000) := by
  cases h1 : df.columns.filter (bpmDownPred codeLower) with
  | nil =>
    have hf1 : df.columns.find? (bpmDownPred codeLower) = none := by
      rw [find?_eq_head?_filter, h1]; rfl
    cases h2 : df.columns.filter (bpmUpPred codeLower) with
    | nil =>
      have hf2 : df.columns.find? (bpmUpPred codeLower) = none := by
        rw [find?_eq_head?_filter, h2]; rfl
      simp only [codedTotal, bpm_down_col, bpm_up_col, firstAbsSumOr0,
        h1, h2, hf1, hf2]
    | cons c2 r2 =>
      have hf2 : df.columns.find? (bpmUpPred codeLower) = some c2 := by
        rw [find?_eq_head?_filter, h2]; rfl
      simp only [codedTotal, bpm_down_col, bpm_up_col, firstAbsSumOr0,
        h1, h2, hf1, hf2]
  | cons c1 r1 =>
    have hf1 : df.columns.find? (bpmDownPred codeLower) = some c1 := by
      rw [find?_eq_head?_filter, h1]; rfl
    cases h2 : df.columns.filter (bpmUpPred codeLower) with
    | nil =>
      have hf2 : df.columns.find? (bpmUpPred codeLower) = none := by
        rw [find?_eq_head?_filter, h2]; rfl
      simp only [codedTotal, bpm_down_col, bpm_up_col, firstAbsSumOr0,
        h1, h2, hf1, hf2]
    | cons c2 r2 =>
      have hf2 : df.columns.find? (bpmUpPred codeLower) = some c2 := by
        rw [find?_eq_head?_filter, h2]; rfl
      simp only [codedTotal, bpm_down_col, bpm_up_col, firstAbsSumOr0,
        h1, h2, hf1, hf2]

/-- C2 counterexample: the claim prescribes case-insensitive substring
matching for every indicator's category prefix.  On a merged table
whose only column is `PTF_mcp`, that rule selects the column (its
lowered name contains `ptf_` and `mcp`) and would give the column's
mean, 10; but the program tests the `ptf_` prefix case-sensitively
(`"ptf_" in c`, not `c.lower()`), finds no column, and yields 0, so
the claim as stated is false. -/
theorem c2_counterexample :
    ptfPredCI "PTF_mcp" = true
    ∧ (DF.columns dfPTF).find? ptfPredCI = some "PTF_mcp"
    ∧ colMean (DF.colData dfPTF "PTF_mcp") = some 10
    ∧ (format_data dfPTF).ptf = some 0
    ∧ some (0 : Rat) ≠ some (10 : Rat) := by
  refine ⟨by decide, by decide, ?_, ?_, by decide⟩
  · rw [show DF.colData dfPTF "PTF_mcp" = [some 10] from by decide]
    norm_num [colMean, colCount_cons_some, colCount_nil, colSum_cons_some,
      colSum_nil]
  · have h : ptf_col dfPTF = [] := by decide
    simp only [format_data, h]

/-- C2 (amended): every indicator takes the FIRST matching column and
is the literal 0 when no column matches, never an error; the matching
is substring-based and case-insensitive for the semantic keywords, for
the `dam_` pattern and for the frequency-capacity patterns, but the
category prefixes `ptf_`, `smf_`, `idm_`, `bpmD_`, `bpmU_` and the
`systemMarginalPrice` keyword are matched case-sensitively, and the
bilateral indicator requires a column named exactly
`bilateral_quantity`.  In particular, on a merged table containing the
column `dam_matchedBidQuantity` (values [2,3]) and no ptf column, the
dam indicator is the column sum divided by 1e6 and the ptf indicator
is 0. -/
theorem c2_matching :
    (∀ df : DF,
      (format_data df).bilateral_quantity =
        (if (DF.columns df).contains "bilateral_quantity"
         then some (colSum (df.colData "bilateral_quantity") / 1000000)
         else some 0)
      ∧ (format_data df).dam_matchedBids =
          firstIndicator df damPred (fun xs => some (colSum xs / 1000000))
      ∧ (format_data df).ptf = firstIndicator df ptfPred colMean
      ∧ (format_data df).smf = firstIndicator df smfPred colMean
      ∧ (format_data df).idm_wap = firstIndicator df wapPred colMean
      ∧ (format_data df).idm_quant =
          firstIndicator df idmQuantPred (fun xs => some (colSum xs / 1000000))
      ∧ (format_data df).idm_year_price =
          (match (DF.columns df).find? idmQuantPred,
              (DF.columns df).find? wapPred with
           | some q, some w =>
              if 0 < colSum (df.colData q)
              then some (colSum (zipMul (df.colData q) (df.colData w)) /
                colSum (df.colData q))
              else some 0
           | some _, none => some 0
           | none, _ => some 0)
      ∧ (format_data df).zero_coded =
          some ((firstAbsSumOr0 df (bpmDownPred "zerocoded") +
            firstAbsSumOr0 df (bpmUpPred "zerocoded")) / 1000000)
      ∧ (format_data df).one_coded =
          some ((firstAbsSumOr0 df (bpmDownPred "onecoded") +
            firstAbsSumOr0 df (bpmUpPred "onecoded")) / 1000000)
      ∧ (format_data df).two_coded =
          some ((firstAbsSumOr0 df (bpmDownPred "twocoded") +
            firstAbsSumOr0 df (bpmUpPred "twocoded")) / 1000000)
      ∧ (format_data df).down_delivered =
          firstIndicator df (bpmDownPred "delivered")
            (fun xs => some (colAbsSum xs / 1000000))
      ∧ (format_data df).up_delivered =
          firstIndicator df (bpmUpPred "delivered")
            (fun xs => some (colAbsSum xs / 1000000))
      ∧ (format_data df).pfc_amount = firstIndicator df (freqPred "pfc_amount") colMean
      ∧ (format_data df).pfp_price = firstIndicator df (freqPred "pfp_price") colMean
      ∧ (format_data df).sfc_amount = firstIndicator df (freqPred "sfc_amount") colMean
      ∧ (format_data df).sfp_price = firstIndicator df (freqPred "sfp_price") colMean)
    ∧ (format_data dfDam).dam_matchedBids = some (5 / 1000000)
    ∧ (format_data dfDam).ptf = some 0 := by
  refine ⟨?_, ?_, ?_⟩
  · intro df
    refine ⟨rfl, ?_, ?_, ?_, ?_, ?_, ?_, ?_, ?_, ?_, ?_, ?_, ?_, ?_, ?_, ?_⟩
    · cases hf : df.columns.filter damPred with
      | nil =>
        have hfind : df.columns.find? damPred = none := by
          rw [find?_eq_head?_filter, hf]; rfl
        simp only [format_data, firstIndicator, dam_col, hf, hfind]
      | cons c rest =>
        have hfind : df.columns.find? damPred = some c := by
          rw [find?_eq_head?_filter, hf]; rfl
        simp only [format_data, firstIndicator, dam_col, hf, hfind]
    · cases hf : df.columns.filter ptfPred with
      | nil =>
        have hfind : df.columns.find? ptfPred = none := by
          rw [find?_eq_head?_filter, hf]; rfl
        simp only [format_data, firstIndicator, ptf_col, hf, hfind]
      | cons c rest =>
        have hfind : df.columns.find? ptfPred = some c := by
          rw [find?_eq_head?_filter, hf]; rfl
        simp only [format_data, firstIndicator, ptf_col, hf, hfind]
    · cases hf : df.columns.filter smfPred with
      | nil =>
        have hfind : df.columns.find? smfPred = none := by
          rw [find?_eq_head?_filter, hf]; rfl
        simp only [format_data, firstIndicator, smf_col, hf, hfind]
      | cons c rest =>
        have hfind : df.columns.find? smfPred = some c := by
          rw [find?_eq_head?_filter, hf]; rfl
        simp only [format_data, firstIndicator, smf_col, hf, hfind]
    · cases hf : df.columns.filter wapPred with
      | nil =>
        have hfind : df.columns.find? wapPred = none := by
          rw [find?_eq_head?_filter, hf]; rfl
        simp only [format_data, firstIndicator, wap_col, hf, hfind]
      | cons c rest =>
        have hfind : df.columns.find? wapPred = some c := by
          rw [find?_eq_head?_filter, hf]; rfl
        simp only [format_data, firstIndicator, wap_col, hf, hfind]
    · cases hf : df.columns.filter idmQuantPred with
      | nil =>
        have hfind : df.columns.find? idmQuantPred = none := by
          rw [find?_eq_head?_filter, hf]; rfl
        simp only [format_data, firstIndicator, idm_quant_col, hf, hfind]
      | cons c rest =>
        have hfind : df.columns.find? idmQuantPred = some c := by
          rw [find?_eq_head?_filter, hf]; rfl
        simp only [format_data, firstIndicator, idm_quant_col, hf, hfind]
    · cases hq : df.columns.filter idmQuantPred with
      | nil =>
        have hf1 : df.columns.find? idmQuantPred = none := by
          rw [find?_eq_head?_filter, hq]; rfl
        simp only [format_data, idm_quant_col, hq, hf1]
      | cons q qs =>
        have hf1 : df.columns.find? idmQuantPred = some q := by
          rw [find?_eq_head?_filter, hq]; rfl
        cases hw : df.columns.filter wapPred with
        | nil =>
          have hf2 : df.columns.find? wapPred = none := by
            rw [find?_eq_head?_filter, hw]; rfl
          simp only [format_data, idm_quant_col, wap_col, hq, hw, hf1, hf2]
        | cons w ws =>
          have hf2 : df.columns.find? wapPred = some w := by
            rw [find?_eq_head?_filter, hw]; rfl
          simp only [format_data, idm_quant_col, wap_col, hq, hw, hf1, hf2]
    · simp only [format_data]
      rw [show lowerStr "ZeroCoded" = "zerocoded" from by decide]
      exact codedTotal_eq df "zerocoded"
    · simp only [format_data]
      rw [show lowerStr "OneCoded" = "onecoded" from by decide]
      exact codedTotal_eq df "onecoded"
    · simp only [format_data]
      rw [show lowerStr "TwoCoded" = "twocoded" from by decide]
      exact codedTotal_eq df "twocoded"
    · cases hf : df.columns.filter (bpmDownPred "delivered") with
      | nil =>
        have hfind : df.columns.find? (bpmDownPred "delivered") = none := by
          rw [find?_eq_head?_filter, hf]; rfl
        simp only [format_data, firstIndicator, down_delivered_col, hf, hfind]
      | cons c rest =>
        have hfind : df.columns.find? (bpmDownPred "delivered") = some c := by
          rw [find?_eq_head?_filter, hf]; rfl
        simp only [format_data, firstIndicator, down_delivered_col, hf, hfind]
    · cases hf : df.columns.filter (bpmUpPred "delivered") with
      | nil =>
        have hfind : df.columns.find? (bpmUpPred "delivered") = none := by
          rw [find?_eq_head?_filter, hf]; rfl
        simp only [format_data, firstIndicator, up_delivered_col, hf, hfind]
      | cons c rest =>
        have hfind : df.columns.find? (bpmUpPred "delivered") = some c := by
          rw [find?_eq_head?_filter, hf]; rfl
        simp only [format_data, firstIndicator, up_delivered_col, hf, hfind]
    · cases hf : df.columns.filter (freqPred "pfc_amount") with
      | nil =>
        have hfind : df.columns.find? (freqPred "pfc_amount") = none := by
          rw [find?_eq_head?_filter, hf]; rfl
        simp only [format_data, firstIndicator, freq_col, hf, hfind]
      | cons c rest =>
        have hfind : df.columns.find? (freqPred "pfc_amount") = some c := by
          rw [find?_eq_head?_filter, hf]; rfl
        simp only [format_data, firstIndicator, freq_col, hf, hfind]
    · cases hf : df.columns.filter (freqPred "pfp_price") with
      | nil =>
        have hfind : df.columns.find? (freqPred "pfp_price") = none := by
          rw [find?_eq_head?_filter, hf]; rfl
        simp only [format_data, firstIndicator, freq_col, hf, hfind]
      | cons c rest =>
        have hfind : df.columns.find? (freqPred "pfp_price") = some c := by
          rw [find?_eq_head?_filter, hf]; rfl
        simp only [format_data, firstIndicator, freq_col, hf, hfind]
    · cases hf : df.columns.filter (freqPred "sfc_amount") with
      | nil =>
        have hfind : df.columns.find? (freqPred "sfc_amount") = none := by
          rw [find?_eq_head?_filter, hf]; rfl
        simp only [format_data, firstIndicator, freq_col, hf, hfind]
      | cons c rest =>
        have hfind : df.columns.find? (freqPred "sfc_amount") = some c := by
          rw [find?_eq_head?_filter, hf]; rfl
        simp only [format_data, firstIndicator, freq_col, hf, hfind]
    · cases hf : df.columns.filter (freqPred "sfp_price") with
      | nil =>
        have hfind : df.columns.find? (freqPred "sfp_price") = none := by
          rw [find?_eq_head?_filter, hf]; rfl
        simp only [format_data, firstIndicator, freq_col, hf, hfind]
      | cons c rest =>
        have hfind : df.columns.find? (freqPred "sfp_price") = some c := by
          rw [find?_eq_head?_filter, hf]; rfl
        simp only [format_data, firstIndicator, freq_col, hf, hfind]
  · have hd : dam_col dfDam = ["dam_matchedBidQuantity"] := by decide
    simp only [format_data, hd]
    rw [show DF.colData dfDam "dam_matchedBidQuantity" = [some 2, some 3] from by decide]
    norm_num [colSum_cons_some, colSum_nil]
  · have hp : ptf_col dfDam = [] := by decide
    simp only [format_data, hp]

/-- C9: when authentication succeeds, the quarter is valid, and every
one of the 13 category fetches yields an empty record list, the run
produces a workbook whose Detail sheet is exactly the single status
row `Veri bulunamadı` under the header `Durum`, and whose Summary
sheet holds all 16 indicator rows in their fixed label order, each
with value 0. -/
theorem c9_empty_run : ∀ (resp : AuthResp) (q y : Nat) (o : FetchOutcomes),
    resp.status = 201 →
    (q = 1 ∨ q = 2 ∨ q = 3 ∨ q = 4) →
    2015 ≤ y →
    fetchItems o.ptf = [] → fetchItems o.smf = [] → fetchItems o.sysdir = [] →
    fetchItems o.bilateral = [] → fetchItems o.dam = [] →
    fetchItems o.bpmDown = [] → fetchItems o.bpmUp = [] →
    fetchItems o.idmPrice = [] → fetchItems o.idmQuant = [] →
    fetchItems o.pfc = [] → fetchItems o.pfp = [] → fetchItems o.sfc = [] →
    fetchItems o.sfp = [] →
    (runReportTr resp (q, y) o).1 =
      Except.ok ⟨goestergeLabels.map (fun l => (l, some (0 : Rat))),
        ["Durum"], [[Cell.str "Veri bulunamadı"]]⟩ := by
  intro resp q y o h201 hq hy h1 h2 h3 h4 h5 h6 h7 h8 h9 h10 h11 h12 h13
  have hdf := download_empty o h1 h2 h3 h4 h5 h6 h7 h8 h9 h10 h11 h12 h13
  have htok : get_tgt_token resp = Except.ok resp.text.trim := by
    rw [get_tgt_token, if_pos h201]
  have hwb : get_excel_bytes (download_data_eff o).1
      (ozetRows (format_data (download_data_eff o).1)) =
      ⟨goestergeLabels.map (fun l => (l, some (0 : Rat))),
       ["Durum"], [[Cell.str "Veri bulunamadı"]]⟩ := by
    rw [hdf, format_data_emptyDF]
    rfl
  rcases hq with rfl | rfl | rfl | rfl <;>
    simp [runReportTr, htok, quarter_to_dates, hy, hwb]

/-- C9 witness: all-timeout fetch outcomes with a successful
authentication and quarter (4, 2024). -/
theorem c9_empty_run_witness :
    (runReportTr ⟨201, "token"⟩ (4, 2024) allTimeoutOutcomes).1 =
      Except.ok ⟨goestergeLabels.map (fun l => (l, some (0 : Rat))),
        ["Durum"], [[Cell.str "Veri bulunamadı"]]⟩ :=
  c9_empty_run ⟨201, "token"⟩ 4 2024 allTimeoutOutcomes rfl (by decide)
    (by decide) (by decide) (by decide) (by decide) (by decide) (by decide)
    (by decide) (by decide) (by decide) (by decide) (by decide) (by decide)
    (by decide) (by decide)
